import Mathlib

/-!
Verification of the error taxonomy and status-code mapper of the
kafka-rust client (`src/error.rs`), as a shallow embedding in Lean 4.

The embedding models:
  * `KafkaCode` and `Error` — the two enums of `error.rs`;
  * `io::Error` values, abstracted to the pair (kind discriminant, message)
    that the code observes through `err.kind()`, `Display` and `description`;
  * `byteorder::Error` — the two-variant enum the `From` impl matches on;
  * `FromPrimitive::from_i16 / from_i64 / from_u64` for `Error`;
  * the `From<io::Error>` and `From<byteorder::Error>` conversions;
  * the `Clone` impl, as a fuel-indexed evaluator because its wildcard
    arm `ref x => x.clone()` is a self-call (Rust method resolution on a
    receiver of type `&Error` selects `<Error as Clone>::clone` again);
  * `Display::fmt` and `error::Error::description`, as `String`-valued
    functions.

Machine integers appear only as exact pattern matches, so `i16` is
embedded as `Int` together with an explicit range predicate.
-/

namespace KafkaErr

/-- Model of `std::io::Error` restricted to what `error.rs` observes:
a kind discriminant (`std::io::ErrorKind`, abstracted to `Nat`) and the
error's own message, which is what `io::Error::new(kind, msg)` stores and
what the error's `Display` and `description` report for such values. -/
structure IoError where
  kind : Nat
  msg : String
  deriving DecidableEq, Repr

/-- `KafkaCode` from `src/error.rs`: the errors reported by a remote
Kafka server, one variant per documented wire value plus `Unknown`. -/
inductive KafkaCode where
  | Unknown
  | OffsetOutOfRange
  | InvalidMessage
  | UnknownTopicOrPartition
  | InvalidMessageSize
  | LeaderNotAvailable
  | NotLeaderForPartition
  | RequestTimedOut
  | BrokerNotAvailable
  | ReplicaNotAvailable
  | MessageSizeTooLarge
  | StaleControllerEpochCode
  | OffsetMetadataTooLargeCode
  | OffsetsLoadInProgressCode
  | ConsumerCoordinatorNotAvailableCode
  | NotCoordinatorForConsumerCode
  | InvalidTopicCode
  | RecordListTooLargeCode
  | NotEnoughReplicasCode
  | NotEnoughReplicasAfterAppendCode
  | InvalidRequiredAcksCode
  | IllegalGenerationCode
  | InconsistentGroupProtocolCode
  | InvalidGroupIdCode
  | UnknownMemberIdCode
  | InvalidSessionTimeoutCode
  | RebalanceInProgressCode
  | InvalidCommitOffsetSizeCode
  | TopicAuthorizationFailedCode
  | GroupAuthorizationFailedCode
  | ClusterAuthorizationFailedCode
  deriving DecidableEq, Repr

/-- `Error` from `src/error.rs`: the various errors the library produces. -/
inductive Error where
  | Io (err : IoError)
  | Kafka (code : KafkaCode)
  | InvalidInputSnappy
  | UnexpectedEOF
  | CodecError
  | StringDecodeError
  | NoHostReachable
  deriving DecidableEq, Repr

/-- `n` lies in the signed 16-bit range, the domain of Rust's `i16`. -/
def isI16 (n : Int) : Prop := -32768 ≤ n ∧ n < 32768

instance (n : Int) : Decidable (isI16 n) := by
  unfold isI16; infer_instance

/-- `FromPrimitive::from_i16` for `Error` (`src/error.rs` lines 149–184):
an exact match on the wire value, with the wildcard arm returning `None`. -/
def from_i16 (n : Int) : Option Error :=
  if n = 1 then some (Error.Kafka KafkaCode.OffsetOutOfRange)
  else if n = 2 then some (Error.Kafka KafkaCode.InvalidMessage)
  else if n = 3 then some (Error.Kafka KafkaCode.UnknownTopicOrPartition)
  else if n = 4 then some (Error.Kafka KafkaCode.InvalidMessageSize)
  else if n = 5 then some (Error.Kafka KafkaCode.LeaderNotAvailable)
  else if n = 6 then some (Error.Kafka KafkaCode.NotLeaderForPartition)
  else if n = 7 then some (Error.Kafka KafkaCode.RequestTimedOut)
  else if n = 8 then some (Error.Kafka KafkaCode.BrokerNotAvailable)
  else if n = 9 then some (Error.Kafka KafkaCode.ReplicaNotAvailable)
  else if n = 10 then some (Error.Kafka KafkaCode.MessageSizeTooLarge)
  else if n = 11 then some (Error.Kafka KafkaCode.StaleControllerEpochCode)
  else if n = 12 then some (Error.Kafka KafkaCode.OffsetMetadataTooLargeCode)
  else if n = 14 then some (Error.Kafka KafkaCode.OffsetsLoadInProgressCode)
  else if n = 15 then some (Error.Kafka KafkaCode.ConsumerCoordinatorNotAvailableCode)
  else if n = 16 then some (Error.Kafka KafkaCode.NotCoordinatorForConsumerCode)
  else if n = 17 then some (Error.Kafka KafkaCode.InvalidTopicCode)
  else if n = 18 then some (Error.Kafka KafkaCode.RecordListTooLargeCode)
  else if n = 19 then some (Error.Kafka KafkaCode.NotEnoughReplicasCode)
  else if n = 20 then some (Error.Kafka KafkaCode.NotEnoughReplicasAfterAppendCode)
  else if n = 21 then some (Error.Kafka KafkaCode.InvalidRequiredAcksCode)
  else if n = 22 then some (Error.Kafka KafkaCode.IllegalGenerationCode)
  else if n = 23 then some (Error.Kafka KafkaCode.InconsistentGroupProtocolCode)
  else if n = 24 then some (Error.Kafka KafkaCode.InvalidGroupIdCode)
  else if n = 25 then some (Error.Kafka KafkaCode.UnknownMemberIdCode)
  else if n = 26 then some (Error.Kafka KafkaCode.InvalidSessionTimeoutCode)
  else if n = 27 then some (Error.Kafka KafkaCode.RebalanceInProgressCode)
  else if n = 28 then some (Error.Kafka KafkaCode.InvalidCommitOffsetSizeCode)
  else if n = 29 then some (Error.Kafka KafkaCode.TopicAuthorizationFailedCode)
  else if n = 30 then some (Error.Kafka KafkaCode.GroupAuthorizationFailedCode)
  else if n = 31 then some (Error.Kafka KafkaCode.ClusterAuthorizationFailedCode)
  else if n = -1 then some (Error.Kafka KafkaCode.Unknown)
  else none

/-- `FromPrimitive::from_i64` for `Error` (`src/error.rs` lines 185–187):
discards its argument and returns `Kafka(Unknown)`. -/
def from_i64 (_ : Int) : Option Error :=
  some (Error.Kafka KafkaCode.Unknown)

/-- `FromPrimitive::from_u64` for `Error` (`src/error.rs` lines 188–190):
discards its argument and returns `Kafka(Unknown)`. -/
def from_u64 (_ : Nat) : Option Error :=
  some (Error.Kafka KafkaCode.Unknown)

/-- The wire values with a documented mapping in `from_i16`
(`src/error.rs` lines 151–181): `1`–`12`, `14`–`31` and `-1`. -/
def documentedWires : List Int :=
  [1, 2, 3, 4, 5, 6, 7, 8, 9, 10, 11, 12, 14, 15, 16, 17, 18, 19, 20,
   21, 22, 23, 24, 25, 26, 27, 28, 29, 30, 31, -1]

/-- Model of `byteorder::Error` (version 0.x): either an end-of-input
condition or a wrapped `std::io::Error`. -/
inductive ByteorderError where
  | UnexpectedEOF
  | Io (err : IoError)
  deriving DecidableEq, Repr

/-- `impl From<io::Error> for Error` (`src/error.rs` lines 194–196):
wraps the failure unchanged in `Error::Io`. -/
def fromIoError (err : IoError) : Error :=
  Error.Io err

/-- `impl From<byteorder::Error> for Error` (`src/error.rs` lines 199–206). -/
def fromByteorderError : ByteorderError → Error
  | ByteorderError.UnexpectedEOF => Error.UnexpectedEOF
  | ByteorderError.Io err => Error.Io err

/-- `io::Error::new(kind, msg)`: a fresh error value with the given kind
and message. -/
def mkIoError (kind : Nat) (msg : String) : IoError :=
  { kind := kind, msg := msg }

/-- `impl Clone for Error` (`src/error.rs` lines 208–215), evaluated with
fuel. The `Error::Io` arm builds `Error::Io(io::Error::new(err.kind(), "Io
Error"))`. The wildcard arm `ref x => x.clone()` binds `x : &Error`, and
Rust method resolution on that receiver selects `<Error as Clone>::clone`
(the very function being defined), so the arm is a self-call on the same
value; `none` means the evaluation did not finish within the given fuel. -/
def cloneF : Nat → Error → Option Error
  | 0, _ => none
  | Nat.succ fuel, e =>
    match e with
    | Error.Io err => some (Error.Io (mkIoError err.kind "Io Error"))
    | x => cloneF fuel x

/-- Rust `{:?}` (the derived `Debug`) output for a `KafkaCode` value:
the bare variant name. -/
def kafkaCodeDebug : KafkaCode → String
  | KafkaCode.Unknown => "Unknown"
  | KafkaCode.OffsetOutOfRange => "OffsetOutOfRange"
  | KafkaCode.InvalidMessage => "InvalidMessage"
  | KafkaCode.UnknownTopicOrPartition => "UnknownTopicOrPartition"
  | KafkaCode.InvalidMessageSize => "InvalidMessageSize"
  | KafkaCode.LeaderNotAvailable => "LeaderNotAvailable"
  | KafkaCode.NotLeaderForPartition => "NotLeaderForPartition"
  | KafkaCode.RequestTimedOut => "RequestTimedOut"
  | KafkaCode.BrokerNotAvailable => "BrokerNotAvailable"
  | KafkaCode.ReplicaNotAvailable => "ReplicaNotAvailable"
  | KafkaCode.MessageSizeTooLarge => "MessageSizeTooLarge"
  | KafkaCode.StaleControllerEpochCode => "StaleControllerEpochCode"
  | KafkaCode.OffsetMetadataTooLargeCode => "OffsetMetadataTooLargeCode"
  | KafkaCode.OffsetsLoadInProgressCode => "OffsetsLoadInProgressCode"
  | KafkaCode.ConsumerCoordinatorNotAvailableCode => "ConsumerCoordinatorNotAvailableCode"
  | KafkaCode.NotCoordinatorForConsumerCode => "NotCoordinatorForConsumerCode"
  | KafkaCode.InvalidTopicCode => "InvalidTopicCode"
  | KafkaCode.RecordListTooLargeCode => "RecordListTooLargeCode"
  | KafkaCode.NotEnoughReplicasCode => "NotEnoughReplicasCode"
  | KafkaCode.NotEnoughReplicasAfterAppendCode => "NotEnoughReplicasAfterAppendCode"
  | KafkaCode.InvalidRequiredAcksCode => "InvalidRequiredAcksCode"
  | KafkaCode.IllegalGenerationCode => "IllegalGenerationCode"
  | KafkaCode.InconsistentGroupProtocolCode => "InconsistentGroupProtocolCode"
  | KafkaCode.InvalidGroupIdCode => "InvalidGroupIdCode"
  | KafkaCode.UnknownMemberIdCode => "UnknownMemberIdCode"
  | KafkaCode.InvalidSessionTimeoutCode => "InvalidSessionTimeoutCode"
  | KafkaCode.RebalanceInProgressCode => "RebalanceInProgressCode"
  | KafkaCode.InvalidCommitOffsetSizeCode => "InvalidCommitOffsetSizeCode"
  | KafkaCode.TopicAuthorizationFailedCode => "TopicAuthorizationFailedCode"
  | KafkaCode.GroupAuthorizationFailedCode => "GroupAuthorizationFailedCode"
  | KafkaCode.ClusterAuthorizationFailedCode => "ClusterAuthorizationFailedCode"

/-- `impl fmt::Display for Error` (`src/error.rs` lines 238–251), as the
string the formatter produces. The `Error::Io` arm delegates to the inner
error's own `Display`, which for the values modelled here prints the
error's message; the `Error::Kafka` arm is
`write!(f, "Kafka Error (\x7b:?\x7d)", c)`. -/
def display : Error → String
  | Error.Io err => err.msg
  | Error.Kafka c => "Kafka Error (" ++ kafkaCodeDebug c ++ ")"
  | Error.InvalidInputSnappy => "Snappy decoding error"
  | Error.UnexpectedEOF => "Unexpected EOF"
  | Error.CodecError => "Encoding/Decoding Error"
  | Error.StringDecodeError => "String decoding error"
  | Error.NoHostReachable => "No Host Reachable"

/-- `error::Error::description` for `Error` (`src/error.rs` lines
218–228). The `Error::Io` arm delegates to the inner error's own
`description`, which for the values modelled here is the error's message;
every other arm is a fixed string literal. -/
def description : Error → String
  | Error.Io err => err.msg
  | Error.Kafka _ => "Kafka Error"
  | Error.InvalidInputSnappy => "Snappy decode error"
  | Error.UnexpectedEOF => "Unexpected EOF"
  | Error.CodecError => "Encoding/Decoding error"
  | Error.StringDecodeError => "String decoding error"
  | Error.NoHostReachable => "No host reachable"

/-- On any variant other than `Error::Io`, the wildcard arm of the `Clone`
impl calls the impl itself on the same value, so evaluation exhausts any
amount of fuel without producing a result. -/
theorem cloneF_nonIo (fuel : Nat) (e : Error) (h : ∀ err, e ≠ Error.Io err) :
    cloneF fuel e = none := by
  induction fuel with
  | zero => rfl
  | succ n ih =>
    cases e with
    | Io err => exact absurd rfl (h err)
    | Kafka c => simpa [cloneF] using ih
    | InvalidInputSnappy => simpa [cloneF] using ih
    | UnexpectedEOF => simpa [cloneF] using ih
    | CodecError => simpa [cloneF] using ih
    | StringDecodeError => simpa [cloneF] using ih
    | NoHostReachable => simpa [cloneF] using ih

/-- C1 counterexample: the wire values `13` and `9999` have no documented
mapping, and `from_i16` sends them to `none`, not to
`Error::Kafka(KafkaCode::Unknown)` as the claim states. -/
theorem from_i16_unmapped_not_unknown :
    from_i16 13 = none ∧ from_i16 9999 = none ∧
    ¬ from_i16 13 = some (Error.Kafka KafkaCode.Unknown) ∧
    ¬ from_i16 9999 = some (Error.Kafka KafkaCode.Unknown) := by
  decide

set_option maxHeartbeats 1000000 in
/-- C1 (amended): `from_i16` is total over the signed 16-bit domain — for
every `i16` value it returns exactly one `Option` result without failing —
and every `i16` value with no documented mapping (every value outside
`documentedWires`, e.g. `13`, `9999`) maps to `none` rather than to the
`Unknown` variant. -/
theorem from_i16_total_unmapped_none :
    (∀ n : Int, isI16 n → ∃! r : Option Error, from_i16 n = r) ∧
    (∀ n : Int, isI16 n → n ∉ documentedWires → from_i16 n = none) := by
  refine ⟨fun n _ => ⟨from_i16 n, rfl, fun y hy => hy.symm⟩, ?_⟩
  intro n _ hnotin
  rw [from_i16]
  have hv1 : ¬ n = 1 := fun h => hnotin (by rw [h]; decide)
  rw [if_neg hv1]
  have hv2 : ¬ n = 2 := fun h => hnotin (by rw [h]; decide)
  rw [if_neg hv2]
  have hv3 : ¬ n = 3 := fun h => hnotin (by rw [h]; decide)
  rw [if_neg hv3]
  have hv4 : ¬ n = 4 := fun h => hnotin (by rw [h]; decide)
  rw [if_neg hv4]
  have hv5 : ¬ n = 5 := fun h => hnotin (by rw [h]; decide)
  rw [if_neg hv5]
  have hv6 : ¬ n = 6 := fun h => hnotin (by rw [h]; decide)
  rw [if_neg hv6]
  have hv7 : ¬ n = 7 := fun h => hnotin (by rw [h]; decide)
  rw [if_neg hv7]
  have hv8 : ¬ n = 8 := fun h => hnotin (by rw [h]; decide)
  rw [if_neg hv8]
  have hv9 : ¬ n = 9 := fun h => hnotin (by rw [h]; decide)
  rw [if_neg hv9]
  have hv10 : ¬ n = 10 := fun h => hnotin (by rw [h]; decide)
  rw [if_neg hv10]
  have hv11 : ¬ n = 11 := fun h => hnotin (by rw [h]; decide)
  rw [if_neg hv11]
  have hv12 : ¬ n = 12 := fun h => hnotin (by rw [h]; decide)
  rw [if_neg hv12]
  have hv13 : ¬ n = 14 := fun h => hnotin (by rw [h]; decide)
  rw [if_neg hv13]
  have hv14 : ¬ n = 15 := fun h => hnotin (by rw [h]; decide)
  rw [if_neg hv14]
  have hv15 : ¬ n = 16 := fun h => hnotin (by rw [h]; decide)
  rw [if_neg hv15]
  have hv16 : ¬ n = 17 := fun h => hnotin (by rw [h]; decide)
  rw [if_neg hv16]
  have hv17 : ¬ n = 18 := fun h => hnotin (by rw [h]; decide)
  rw [if_neg hv17]
  have hv18 : ¬ n = 19 := fun h => hnotin (by rw [h]; decide)
  rw [if_neg hv18]
  have hv19 : ¬ n = 20 := fun h => hnotin (by rw [h]; decide)
  rw [if_neg hv19]
  have hv20 : ¬ n = 21 := fun h => hnotin (by rw [h]; decide)
  rw [if_neg hv20]
  have hv21 : ¬ n = 22 := fun h => hnotin (by rw [h]; decide)
  rw [if_neg hv21]
  have hv22 : ¬ n = 23 := fun h => hnotin (by rw [h]; decide)
  rw [if_neg hv22]
  have hv23 : ¬ n = 24 := fun h => hnotin (by rw [h]; decide)
  rw [if_neg hv23]
  have hv24 : ¬ n = 25 := fun h => hnotin (by rw [h]; decide)
  rw [if_neg hv24]
  have hv25 : ¬ n = 26 := fun h => hnotin (by rw [h]; decide)
  rw [if_neg hv25]
  have hv26 : ¬ n = 27 := fun h => hnotin (by rw [h]; decide)
  rw [if_neg hv26]
  have hv27 : ¬ n = 28 := fun h => hnotin (by rw [h]; decide)
  rw [if_neg hv27]
  have hv28 : ¬ n = 29 := fun h => hnotin (by rw [h]; decide)
  rw [if_neg hv28]
  have hv29 : ¬ n = 30 := fun h => hnotin (by rw [h]; decide)
  rw [if_neg hv29]
  have hv30 : ¬ n = 31 := fun h => hnotin (by rw [h]; decide)
  rw [if_neg hv30]
  have hvm : ¬ n = -1 := fun h => hnotin (by rw [h]; decide)
  rw [if_neg hvm]

/-- Witness for the amended C1 theorem at the concrete undocumented
input `13`. -/
theorem from_i16_total_unmapped_none_witness :
    from_i16 13 = none :=
  from_i16_total_unmapped_none.2 13 (by decide) (by decide)

/-- C2: `Clone::clone` applied to any non-transport variant of `Error`
(`Kafka`, `InvalidInputSnappy`, `UnexpectedEOF`, `CodecError`,
`StringDecodeError`, `NoHostReachable`) never produces a value: the
wildcard arm is a self-call, so no amount of fuel yields a result, and the
claimed equal-tagged copy is never returned (code bug: at runtime the
recursion overflows the stack). -/
theorem clone_nontransport_diverges :
    ∀ (fuel : Nat) (c : KafkaCode),
      cloneF fuel (Error.Kafka c) = none ∧
      cloneF fuel Error.InvalidInputSnappy = none ∧
      cloneF fuel Error.UnexpectedEOF = none ∧
      cloneF fuel Error.CodecError = none ∧
      cloneF fuel Error.StringDecodeError = none ∧
      cloneF fuel Error.NoHostReachable = none := by
  intro fuel c
  refine ⟨?_, ?_, ?_, ?_, ?_, ?_⟩ <;>
    exact cloneF_nonIo fuel _ (fun err h => by cases h)

/-- C3: the claim that `Clone::clone` terminates on every constructed
`Error` value fails: there is an `Error` value (e.g. `UnexpectedEOF`) on
which the clone recursion consumes any amount of fuel without returning
(code bug: infinite recursion). -/
theorem clone_not_total :
    ∃ e : Error, ∀ fuel : Nat, cloneF fuel e = none :=
  ⟨Error.UnexpectedEOF, fun fuel =>
    cloneF_nonIo fuel _ (fun err h => by cases h)⟩

/-- C4: each documented wire value maps to its documented variant:
`-1 → Unknown`, `1 → OffsetOutOfRange`, `5 → LeaderNotAvailable`,
`6 → NotLeaderForPartition`, `31 → ClusterAuthorizationFailedCode`. -/
theorem from_i16_documented_values :
    from_i16 (-1) = some (Error.Kafka KafkaCode.Unknown) ∧
    from_i16 1 = some (Error.Kafka KafkaCode.OffsetOutOfRange) ∧
    from_i16 5 = some (Error.Kafka KafkaCode.LeaderNotAvailable) ∧
    from_i16 6 = some (Error.Kafka KafkaCode.NotLeaderForPartition) ∧
    from_i16 31 = some (Error.Kafka KafkaCode.ClusterAuthorizationFailedCode) := by
  decide

set_option maxHeartbeats 1000000 in
/-- C5: the wire value `-1` maps to `Kafka(Unknown)`, and it is the only
signed 16-bit value that does: for every `i16` value `n ≠ -1`,
`from_i16 n` is not `Kafka(Unknown)`. -/
theorem from_i16_unknown_only_neg_one :
    from_i16 (-1) = some (Error.Kafka KafkaCode.Unknown) ∧
    ∀ n : Int, isI16 n → n ≠ -1 →
      from_i16 n ≠ some (Error.Kafka KafkaCode.Unknown) := by
  refine ⟨by decide, ?_⟩
  intro n _ hne heq
  rw [from_i16] at heq
  by_cases h1 : n = 1
  · rw [if_pos h1] at heq; exact absurd heq (by decide)
  rw [if_neg h1] at heq
  by_cases h2 : n = 2
  · rw [if_pos h2] at heq; exact absurd heq (by decide)
  rw [if_neg h2] at heq
  by_cases h3 : n = 3
  · rw [if_pos h3] at heq; exact absurd heq (by decide)
  rw [if_neg h3] at heq
  by_cases h4 : n = 4
  · rw [if_pos h4] at heq; exact absurd heq (by decide)
  rw [if_neg h4] at heq
  by_cases h5 : n = 5
  · rw [if_pos h5] at heq; exact absurd heq (by decide)
  rw [if_neg h5] at heq
  by_cases h6 : n = 6
  · rw [if_pos h6] at heq; exact absurd heq (by decide)
  rw [if_neg h6] at heq
  by_cases h7 : n = 7
  · rw [if_pos h7] at heq; exact absurd heq (by decide)
  rw [if_neg h7] at heq
  by_cases h8 : n = 8
  · rw [if_pos h8] at heq; exact absurd heq (by decide)
  rw [if_neg h8] at heq
  by_cases h9 : n = 9
  · rw [if_pos h9] at heq; exact absurd heq (by decide)
  rw [if_neg h9] at heq
  by_cases h10 : n = 10
  · rw [if_pos h10] at heq; exact absurd heq (by decide)
  rw [if_neg h10] at heq
  by_cases h11 : n = 11
  · rw [if_pos h11] at heq; exact absurd heq (by decide)
  rw [if_neg h11] at heq
  by_cases h12 : n = 12
  · rw [if_pos h12] at heq; exact absurd heq (by decide)
  rw [if_neg h12] at heq
  by_cases h13 : n = 14
  · rw [if_pos h13] at heq; exact absurd heq (by decide)
  rw [if_neg h13] at heq
  by_cases h14 : n = 15
  · rw [if_pos h14] at heq; exact absurd heq (by decide)
  rw [if_neg h14] at heq
  by_cases h15 : n = 16
  · rw [if_pos h15] at heq; exact absurd heq (by decide)
  rw [if_neg h15] at heq
  by_cases h16 : n = 17
  · rw [if_pos h16] at heq; exact absurd heq (by decide)
  rw [if_neg h16] at heq
  by_cases h17 : n = 18
  · rw [if_pos h17] at heq; exact absurd heq (by decide)
  rw [if_neg h17] at heq
  by_cases h18 : n = 19
  · rw [if_pos h18] at heq; exact absurd heq (by decide)
  rw [if_neg h18] at heq
  by_cases h19 : n = 20
  · rw [if_pos h19] at heq; exact absurd heq (by decide)
  rw [if_neg h19] at heq
  by_cases h20 : n = 21
  · rw [if_pos h20] at heq; exact absurd heq (by decide)
  rw [if_neg h20] at heq
  by_cases h21 : n = 22
  · rw [if_pos h21] at heq; exact absurd heq (by decide)
  rw [if_neg h21] at heq
  by_cases h22 : n = 23
  · rw [if_pos h22] at heq; exact absurd heq (by decide)
  rw [if_neg h22] at heq
  by_cases h23 : n = 24
  · rw [if_pos h23] at heq; exact absurd heq (by decide)
  rw [if_neg h23] at heq
  by_cases h24 : n = 25
  · rw [if_pos h24] at heq; exact absurd heq (by decide)
  rw [if_neg h24] at heq
  by_cases h25 : n = 26
  · rw [if_pos h25] at heq; exact absurd heq (by decide)
  rw [if_neg h25] at heq
  by_cases h26 : n = 27
  · rw [if_pos h26] at heq; exact absurd heq (by decide)
  rw [if_neg h26] at heq
  by_cases h27 : n = 28
  · rw [if_pos h27] at heq; exact absurd heq (by decide)
  rw [if_neg h27] at heq
  by_cases h28 : n = 29
  · rw [if_pos h28] at heq; exact absurd heq (by decide)
  rw [if_neg h28] at heq
  by_cases h29 : n = 30
  · rw [if_pos h29] at heq; exact absurd heq (by decide)
  rw [if_neg h29] at heq
  by_cases h30 : n = 31
  · rw [if_pos h30] at heq; exact absurd heq (by decide)
  rw [if_neg h30] at heq
  by_cases hm : n = -1
  · exact hne hm
  rw [if_neg hm] at heq
  exact absurd heq (by decide)

/-- Witness for C5 at the concrete input `7`. -/
theorem from_i16_unknown_only_neg_one_witness :
    from_i16 7 ≠ some (Error.Kafka KafkaCode.Unknown) :=
  from_i16_unknown_only_neg_one.2 7 (by decide) (by decide)

/-- C6: cloning a transport variant `Error::Io` terminates and produces a
new `Error::Io` whose kind equals the original's kind and whose inner
cause is a newly constructed failure carrying the fixed message
"Io Error", independent of the original cause's message. -/
theorem clone_transport_preserves_kind :
    ∀ (err : IoError) (fuel : Nat),
      ∃ e2 : IoError,
        cloneF (fuel + 1) (Error.Io err) = some (Error.Io e2) ∧
        e2.kind = err.kind ∧
        e2.msg = "Io Error" :=
  fun err _ => ⟨mkIoError err.kind "Io Error", rfl, rfl, rfl⟩

/-- C7: `Display` on a transport variant delegates to the wrapped cause's
own message; on `Kafka c` the output contains the `KafkaCode` tag (in
particular `RequestTimedOut` is mentioned for that code); every other
variant yields a fixed per-variant string; and the function is total over
all constructors, so it never panics. -/
theorem display_spec :
    (∀ err : IoError, display (Error.Io err) = err.msg) ∧
    (∀ c : KafkaCode,
      display (Error.Kafka c) = "Kafka Error (" ++ kafkaCodeDebug c ++ ")") ∧
    (∃ s t : String,
      display (Error.Kafka KafkaCode.RequestTimedOut) =
        s ++ "RequestTimedOut" ++ t) ∧
    display Error.InvalidInputSnappy = "Snappy decoding error" ∧
    display Error.UnexpectedEOF = "Unexpected EOF" ∧
    display Error.CodecError = "Encoding/Decoding Error" ∧
    display Error.StringDecodeError = "String decoding error" ∧
    display Error.NoHostReachable = "No Host Reachable" := by
  refine ⟨fun err => rfl, fun c => rfl, ⟨"Kafka Error (", ")", by decide⟩,
    rfl, rfl, rfl, rfl, rfl⟩

/-- C8: every lower-layer failure converts to exactly one `Error` variant:
an I/O failure converts to `Error::Io` wrapping it unchanged; a byteorder
end-of-input failure converts to `Error::UnexpectedEOF`; a byteorder
I/O failure converts to `Error::Io` wrapping it unchanged. -/
theorem lower_layer_conversions :
    (∀ err : IoError, fromIoError err = Error.Io err) ∧
    fromByteorderError ByteorderError.UnexpectedEOF = Error.UnexpectedEOF ∧
    (∀ err : IoError,
      fromByteorderError (ByteorderError.Io err) = Error.Io err) :=
  ⟨fun _ => rfl, rfl, fun _ => rfl⟩

/-- C9: the 64-bit entry points discard their argument: every `i64` and
every `u64` value, including `1` and `6`, maps to
`some (Kafka Unknown)`. -/
theorem from_64_discards_argument :
    (∀ n : Int, from_i64 n = some (Error.Kafka KafkaCode.Unknown)) ∧
    (∀ n : Nat, from_u64 n = some (Error.Kafka KafkaCode.Unknown)) ∧
    from_i64 1 = some (Error.Kafka KafkaCode.Unknown) ∧
    from_i64 6 = some (Error.Kafka KafkaCode.Unknown) :=
  ⟨fun _ => rfl, fun _ => rfl, rfl, rfl⟩

/-- C10: `description` collapses all remote statuses to the constant
string "Kafka Error" — the status code is not recoverable from it — and
every other non-`Io` variant yields a fixed constant string independent of
any payload. -/
theorem description_collapses_status :
    (∀ c : KafkaCode, description (Error.Kafka c) = "Kafka Error") ∧
    (∀ c c' : KafkaCode,
      description (Error.Kafka c) = description (Error.Kafka c')) ∧
    description Error.InvalidInputSnappy = "Snappy decode error" ∧
    description Error.UnexpectedEOF = "Unexpected EOF" ∧
    description Error.CodecError = "Encoding/Decoding error" ∧
    description Error.StringDecodeError = "String decoding error" ∧
    description Error.NoHostReachable = "No host reachable" :=
  ⟨fun _ => rfl, fun _ _ => rfl, rfl, rfl, rfl, rfl, rfl⟩

end KafkaErr
